import Mathlib

/-!
Shallow embedding of the Energy Provider Management System
(`src/energyprovider2.0.cxx`, with `src/energyprovider.cxx` as the earlier
near-identical revision).

Modelling conventions:
* monetary and energy amounts (`double` in the source) are exact rationals `ℚ`;
* timestamps (`time_t`) are natural numbers of seconds since the epoch, and the
  wall-clock read `time(nullptr)` becomes an explicit `now : ℕ` argument;
* C++ member functions that mutate `this` become functions returning the new
  state (paired with the returned value, when there is one);
* `std::vector` becomes `List`, iterated in the same order as the source loops.
-/

namespace EnergyProvider

/-- Energy types the company provides (`enum class EnergyType`). -/
inductive EnergyType where
  | CRUDE_OIL
  | SOLAR
  | NUCLEAR
  | NATURAL_GAS
  deriving DecidableEq, Repr

/-- Billing record (`struct Payment`): the charged amount, the issue timestamp
and the paid flag. -/
structure Payment where
  amount : ℚ
  date : ℕ
  isPaid : Bool
  deriving DecidableEq, Repr

/-- Constructor `Payment(double amt)`: paid flag starts `false`, the issue date
is the wall-clock time at creation, passed here as `now`. -/
def Payment.create (amt : ℚ) (now : ℕ) : Payment :=
  { amount := amt, date := now, isPaid := false }

/-- Whole days since the bill was issued:
`difftime(time(nullptr), date) / (60*60*24)` truncated to `int`, which for
`now ≥ date` is the floor of elapsed seconds over 86400. -/
def Payment.getDaysSince (p : Payment) (now : ℕ) : ℕ :=
  (now - p.date) / (60 * 60 * 24)

/-- Bill overdue test: more than 30 whole days old and still not paid. -/
def Payment.isOverdue (p : Payment) (now : ℕ) : Bool :=
  decide (30 < p.getDaysSince now) && !p.isPaid

/-- Date rendering used inside bill lines. The source formats `date` through
`localtime`/`strftime("%Y-%m-%d")`, which depends on the host time zone; the
embedding renders the raw timestamp instead. No verified claim depends on the
exact date format, only on which lines appear. -/
def Payment.formatDate (p : Payment) : String :=
  toString p.date

/-- Two-decimal currency rendering (`fixed << setprecision(2)`), rounding to
the nearest cent. -/
def formatMoney (q : ℚ) : String :=
  let cents : ℤ := round (q * 100)
  let sign := if cents < 0 then "-" else ""
  let a := cents.natAbs
  sign ++ toString (a / 100) ++ "." ++
    (if a % 100 < 10 then "0" else "") ++ toString (a % 100)

/-- Maintenance record nested inside `Customer` (`struct MaintRecord`). -/
structure MaintRecord where
  date : ℕ
  desc : String
  cost : ℚ
  deriving DecidableEq, Repr

/-- Customer state (`class Customer`): identity fields, the energy allocation,
the usage accumulated since the last bill, the bill history, the one-shot
reminder latch and the maintenance log. -/
structure Customer where
  id : ℤ
  name : String
  province : String
  email : String
  address : String
  energyType : EnergyType
  allocated : ℚ
  used : ℚ
  payments : List Payment
  reminderSent : Bool
  maintenance : List MaintRecord
  deriving DecidableEq, Repr

/-- Customer constructor: `used` starts at 0, no bills, latch cleared. -/
def Customer.create (id : ℤ) (name prov mail addr : String)
    (t : EnergyType) (alloc : ℚ) : Customer :=
  { id := id, name := name, province := prov, email := mail, address := addr,
    energyType := t, allocated := alloc, used := 0, payments := [],
    reminderSent := false, maintenance := [] }

/-- `Customer::useEnergy`: accepts the amount when `amt <= allocated - used`,
adding it to `used`; otherwise rejects and leaves the state untouched. -/
def Customer.useEnergy (c : Customer) (amt : ℚ) : Bool × Customer :=
  if amt ≤ c.allocated - c.used then (true, { c with used := c.used + amt })
  else (false, c)

/-- Sequential application of `useEnergy` calls, keeping only the final
state. -/
def Customer.applyUsages (c : Customer) (amts : List ℚ) : Customer :=
  amts.foldl (fun st a => (st.useEnergy a).2) c

/-- `Customer::createBill`: appends a bill charging `used * rate` and resets
`used` to 0 for the next cycle. -/
def Customer.createBill (c : Customer) (rate : ℚ) (now : ℕ) : Customer :=
  { c with
    payments := c.payments ++ [Payment.create (c.used * rate) now],
    used := 0 }

/-- Default used with `List.getD` when reading a bill at an index; guards in
the operations make sure it is never the value actually read. -/
def defaultPayment : Payment :=
  { amount := 0, date := 0, isPaid := false }

/-- `Customer::makePayment`: when the index is in range and the tendered
amount covers the bill amount, marks that bill paid and clears the reminder
latch; otherwise fails without mutating. -/
def Customer.makePayment (c : Customer) (index : ℤ) (amt : ℚ) : Bool × Customer :=
  if 0 ≤ index ∧ index < (c.payments.length : ℤ) ∧
      (c.payments.getD index.toNat defaultPayment).amount ≤ amt then
    (true,
      { c with
        payments := c.payments.set index.toNat
          { c.payments.getD index.toNat defaultPayment with isPaid := true },
        reminderSent := false })
  else (false, c)

/-- `Customer::hasOverdue`: some bill is overdue at the query time. -/
def Customer.hasOverdue (c : Customer) (now : ℕ) : Bool :=
  c.payments.any (fun p => p.isOverdue now)

/-- `Customer::getTotalOwed`: sum of the amounts of the unpaid bills. -/
def Customer.getTotalOwed (c : Customer) : ℚ :=
  c.payments.foldl (fun total p => if p.isPaid then total else total + p.amount) 0

/-- One line of the reminder email for an overdue bill: its issue date, its
amount to two decimals, and its days-past-due count `getDaysSince() - 30`. -/
def reminderLine (now : ℕ) (p : Payment) : String :=
  "Bill from " ++ p.formatDate ++ " - Amount: $" ++ formatMoney p.amount ++
    " - " ++ toString (p.getDaysSince now - 30) ++ " days overdue\n"

/-- Lines of the reminder email, one per currently-overdue bill, in bill
order (the loop over `payments` in `Customer::sendReminder`). -/
def Customer.reminderLines (c : Customer) (now : ℕ) : List String :=
  (c.payments.filter (fun p => p.isOverdue now)).map (reminderLine now)

/-- Fixed part of the reminder email before the bill lines. -/
def Customer.reminderHeader (c : Customer) : String :=
  "To: " ++ c.email ++ "\nSubject: Your energy payment is overdue\n\n" ++
    "Hi " ++ c.name ++
    ",\n\nJust a reminder that you have unpaid bills that are now overdue:\n\n"

/-- Fixed part of the reminder email after the bill lines. -/
def reminderFooter : String :=
  "\nPlease pay ASAP to avoid service interruption.\n\nThanks,\nCustomer Service Team"

/-- `Customer::sendReminder`: when some bill is overdue and the latch is
clear, sets the latch and returns the email text enumerating the overdue
bills; otherwise returns the empty string and leaves the state untouched. -/
def Customer.sendReminder (c : Customer) (now : ℕ) : String × Customer :=
  if c.hasOverdue now && !c.reminderSent then
    (c.reminderHeader ++ String.join (c.reminderLines now) ++ reminderFooter,
      { c with reminderSent := true })
  else ("", c)

/-- Per-unit prices set in the `EnergySystem` constructor. -/
def initialRates : EnergyType → ℚ
  | EnergyType.CRUDE_OIL => 125 / 100
  | EnergyType.SOLAR => 18 / 100
  | EnergyType.NUCLEAR => 22 / 100
  | EnergyType.NATURAL_GAS => 85 / 100

/-- System state (`class EnergySystem`): the customer collection in insertion
order, the province index mapping a province to customer positions, and the
rate table. The import/export ledger and the random helpers are not read by
any verified operation and are omitted. -/
structure EnergySystem where
  customers : List Customer
  provinces : List (String × List ℕ)
  rates : EnergyType → ℚ

/-- Freshly constructed system: no customers, initial rate table. -/
def emptySystem : EnergySystem :=
  { customers := [], provinces := [], rates := initialRates }

/-- Append a customer position to the bucket of its province, creating the
bucket when the province is new (`provinces[c.getProvince()].push_back`). -/
def bucketAdd (bs : List (String × List ℕ)) (prov : String) (idx : ℕ) :
    List (String × List ℕ) :=
  match bs with
  | [] => [(prov, [idx])]
  | (p, l) :: rest =>
    if p = prov then (p, l ++ [idx]) :: rest else (p, l) :: bucketAdd rest prov idx

/-- `EnergySystem::addCustomer`: appends the customer and indexes its
position under its province. -/
def EnergySystem.addCustomer (s : EnergySystem) (c : Customer) : EnergySystem :=
  { s with
    customers := s.customers ++ [c],
    provinces := bucketAdd s.provinces c.province s.customers.length }

/-- `EnergySystem::doBilling`: every customer with positive usage gets one
bill at the rate of its energy type; the others are left untouched. -/
def EnergySystem.doBilling (s : EnergySystem) (now : ℕ) : EnergySystem :=
  { s with
    customers := s.customers.map (fun c =>
      if 0 < c.used then c.createBill (s.rates c.energyType) now else c) }

/-- C++ `haystack.find(needle) != string::npos`: the needle occurs as a
contiguous, case-sensitive substring of the haystack (the empty needle always
occurs). -/
def strContains (haystack needle : String) : Bool :=
  decide (needle.data <:+: haystack.data)

/-- Query match from `EnergySystem::findCustomers`: the query is a substring
of the decimal rendering of the ID, of the name, or of the email. -/
def Customer.matchesQuery (c : Customer) (query : String) : Bool :=
  strContains (toString c.id) query || strContains c.name query ||
    strContains c.email query

/-- `EnergySystem::findCustomers`: keeps, in insertion order, the customers
passing the optional province filter and matching the query on ID, name or
email. -/
def EnergySystem.findCustomers (s : EnergySystem) (query prov : String) :
    List Customer :=
  s.customers.filter (fun c => (prov == "" || c.province == prov) &&
    c.matchesQuery query)

/-- Number of customers with at least one overdue bill, as counted by
`showStats` and `createMonthlyReport`. -/
def overdueCount (cs : List Customer) (now : ℕ) : ℕ :=
  (cs.filter (fun c => c.hasOverdue now)).length

/-- Overall overdue percentage `overdueCount * 100.0 / customers.size()` from
`showStats` and `createMonthlyReport`. The source has no emptiness guard, so
with zero customers it divides zero by zero on `double` (an IEEE NaN); the
undefined value is modelled as `none`. -/
def overduePercentage (cs : List Customer) (now : ℕ) : Option ℚ :=
  if cs.length = 0 then none
  else some ((overdueCount cs now : ℚ) * 100 / (cs.length : ℚ))

/-- Province usage percentage `used/allocated*100` from
`createMonthlyReport`. The source has no zero guard, so a province whose
summed allocation is zero divides by zero; modelled as `none`. -/
def usagePercentage (used allocated : ℚ) : Option ℚ :=
  if allocated = 0 then none else some (used / allocated * 100)

/-- Province overdue percentage `overdue*100.0/ids.size()` from
`createMonthlyReport`. The source has no emptiness guard; an empty bucket
divides by zero, modelled as `none`. -/
def provinceOverduePercentage (overdue customersCount : ℕ) : Option ℚ :=
  if customersCount = 0 then none
  else some ((overdue : ℚ) * 100 / (customersCount : ℚ))

/-- Default used with `List.getD` for customers. -/
def defaultCustomer : Customer :=
  Customer.create 0 "" "" "" "" EnergyType.CRUDE_OIL 0

/-- Concrete fixture: fresh customer with allocation 500 and no usage. -/
def cAlloc : Customer :=
  Customer.create 1001 "John Smith" "Ontario" "jsmith@email.com"
    "123 Howard Ave" EnergyType.SOLAR 500

/-- Concrete fixture: the same customer after 300 accepted units of usage. -/
def c300 : Customer :=
  (cAlloc.useEnergy 300).2

/-- Concrete fixture: unpaid bill of 54 issued at time 0. -/
def sampleBill : Payment :=
  { amount := 54, date := 0, isPaid := false }

/-- Concrete fixture: customer holding one unpaid bill of 54 issued at 0. -/
def cBill54 : Customer :=
  { cAlloc with payments := [sampleBill] }

/-- Concrete fixture: customer holding one already-paid bill of 54. -/
def cPaid : Customer :=
  { cAlloc with payments := [{ amount := 54, date := 0, isPaid := true }] }

/-- Concrete fixture: customer driven to negative usage through the public
interface by one accepted negative amount. -/
def negUsedCustomer : Customer :=
  ((Customer.create 1 "A" "Ontario" "a@email.com" "x" EnergyType.SOLAR 100).useEnergy
    (-5)).2

/-- Concrete fixture: system holding only the negative-usage customer. -/
def negSystem : EnergySystem :=
  emptySystem.addCustomer negUsedCustomer

/-- Concrete fixture: system holding only the 300-usage customer. -/
def sys300 : EnergySystem :=
  emptySystem.addCustomer c300

/-- Concrete fixture: customer whose email contains the text Smith while the
name does not. -/
def smithEmailCustomer : Customer :=
  Customer.create 7 "Bob Jones" "Quebec" "ASmith@email.com" "y"
    EnergyType.NUCLEAR 10

/-- Concrete fixture: system holding only `smithEmailCustomer`. -/
def smithSystem : EnergySystem :=
  emptySystem.addCustomer smithEmailCustomer

/-! Helper lemmas shared by the claim theorems. -/

/-- One `useEnergy` step keeps `used` within `allocated`: an accepted amount
satisfies `amt ≤ allocated - used`, a rejected one leaves the state alone. -/
theorem useEnergy_step_bound (c : Customer) (a : ℚ) (h : c.used ≤ c.allocated) :
    (c.useEnergy a).2.used ≤ (c.useEnergy a).2.allocated := by
  by_cases hle : a ≤ c.allocated - c.used
  · simp only [Customer.useEnergy, if_pos hle]
    linarith
  · simpa only [Customer.useEnergy, if_neg hle] using h

/-- The allocation bound is preserved along any sequence of `useEnergy`
calls. -/
theorem applyUsages_bound (c : Customer) (amts : List ℚ) (h : c.used ≤ c.allocated) :
    (c.applyUsages amts).used ≤ (c.applyUsages amts).allocated := by
  induction amts generalizing c with
  | nil => simpa [Customer.applyUsages] using h
  | cons a rest ih =>
    simpa [Customer.applyUsages, List.foldl_cons] using
      ih (c.useEnergy a).2 (useEnergy_step_bound c a h)

/-- C1: a `recordUsage` call above the remaining allocation is rejected with
`false` and leaves the customer unchanged; a call within the remaining
allocation returns `true` and adds exactly the requested amount to `used`;
consequently, along any sequence of `useEnergy` calls starting with
`used ≤ allocated`, `used` never exceeds `allocated`. -/
theorem useEnergy_allocation_invariant (c : Customer) (amt : ℚ) (amts : List ℚ) :
    (c.allocated - c.used < amt → c.useEnergy amt = (false, c)) ∧
    (amt ≤ c.allocated - c.used →
      (c.useEnergy amt).1 = true ∧
      (c.useEnergy amt).2 = { c with used := c.used + amt }) ∧
    (c.used ≤ c.allocated →
      (c.applyUsages amts).used ≤ (c.applyUsages amts).allocated) := by
  refine ⟨fun h => ?_, fun h => ?_, fun h => applyUsages_bound c amts h⟩
  · have hn : ¬ amt ≤ c.allocated - c.used := by linarith
    simp [Customer.useEnergy, if_neg hn]
  · simp [Customer.useEnergy, if_pos h]

/-- Witness for C1 at the spec scenario: allocation 500; a request of 600 is
rejected leaving the state unchanged, a request of 300 is accepted, and the
bound survives the sequence 300 then 600. -/
theorem useEnergy_allocation_invariant_witness :
    cAlloc.useEnergy 600 = (false, cAlloc) ∧
    (cAlloc.useEnergy 300).1 = true ∧
    (cAlloc.applyUsages [300, 600]).used ≤ (cAlloc.applyUsages [300, 600]).allocated := by
  refine ⟨(useEnergy_allocation_invariant cAlloc 600 []).1 ?_,
    ((useEnergy_allocation_invariant cAlloc 300 []).2.1 ?_).1,
    (useEnergy_allocation_invariant cAlloc 300 [300, 600]).2.2 ?_⟩
  · norm_num [cAlloc, Customer.create]
  · norm_num [cAlloc, Customer.create]
  · norm_num [cAlloc, Customer.create]

/-- C3: for query times `now ≥ issuedAt`, a bill is overdue exactly when it
is unpaid and strictly more than 30 whole days (floor of elapsed seconds over
86400) have passed; a bill queried at its issue time is not overdue, and an
unpaid bill is not yet overdue at exactly 30 days but is overdue at 31
days. -/
theorem isOverdue_threshold (p : Payment) (now : ℕ) (h : p.date ≤ now) :
    (p.isOverdue now = true ↔ p.isPaid = false ∧ 30 < (now - p.date) / 86400) ∧
    p.isOverdue p.date = false ∧
    (p.isPaid = false → p.isOverdue (p.date + 30 * 86400) = false) ∧
    (p.isPaid = false → p.isOverdue (p.date + 31 * 86400) = true) := by
  refine ⟨?_, ?_, fun hp => ?_, fun hp => ?_⟩
  · simp only [Payment.isOverdue, Payment.getDaysSince, Bool.and_eq_true,
      decide_eq_true_iff, Bool.not_eq_true', and_comm]
  · simp [Payment.isOverdue, Payment.getDaysSince]
  · simp [Payment.isOverdue, Payment.getDaysSince, hp, Nat.add_sub_cancel_left]
  · simp only [Payment.isOverdue, Payment.getDaysSince, hp,
      Nat.add_sub_cancel_left]
    norm_num

/-- Witness for C3: the fixture unpaid bill of 54 issued at time 0 is overdue
31 days later. -/
theorem isOverdue_threshold_witness :
    sampleBill.isOverdue (sampleBill.date + 31 * 86400) = true :=
  (isOverdue_threshold sampleBill (sampleBill.date + 31 * 86400)
    (Nat.le_add_right _ _)).2.2.2 rfl

/-- C4: `createBill rate now` appends exactly one new unpaid bill charging
`used * rate` issued at `now`, resets `used` to 0, keeps the existing bills
as an unchanged prefix, leaves every other field unchanged, and with
`used = 0` the appended bill has amount 0. -/
theorem createBill_reset (c : Customer) (rate : ℚ) (now : ℕ) :
    (c.createBill rate now).used = 0 ∧
    (c.createBill rate now).payments.length = c.payments.length + 1 ∧
    (c.createBill rate now).payments.take c.payments.length = c.payments ∧
    (c.createBill rate now).payments.getD c.payments.length defaultPayment =
      { amount := c.used * rate, date := now, isPaid := false } ∧
    (c.used = 0 →
      ((c.createBill rate now).payments.getD c.payments.length defaultPayment).amount
        = 0) ∧
    (c.createBill rate now).id = c.id ∧
    (c.createBill rate now).name = c.name ∧
    (c.createBill rate now).province = c.province ∧
    (c.createBill rate now).email = c.email ∧
    (c.createBill rate now).address = c.address ∧
    (c.createBill rate now).energyType = c.energyType ∧
    (c.createBill rate now).allocated = c.allocated ∧
    (c.createBill rate now).reminderSent = c.reminderSent ∧
    (c.createBill rate now).maintenance = c.maintenance := by
  have hget : (c.createBill rate now).payments.getD c.payments.length defaultPayment
      = { amount := c.used * rate, date := now, isPaid := false } := by
    simp [Customer.createBill, Payment.create, List.getD_eq_getElem?_getD,
      List.getElem?_concat_length]
  refine ⟨rfl, by simp [Customer.createBill], ?_, hget, fun h0 => ?_, rfl, rfl,
    rfl, rfl, rfl, rfl, rfl, rfl, rfl⟩
  · simp [Customer.createBill]
  · rw [hget, h0]
    simp

/-- Witness for C4 at a zero-usage customer: the appended bill has amount
0. -/
theorem createBill_reset_witness :
    ((cAlloc.createBill (18 / 100) 5).payments.getD cAlloc.payments.length
      defaultPayment).amount = 0 :=
  (createBill_reset cAlloc (18 / 100) 5).2.2.2.2.1 rfl

/-- C9: for any customer satisfying the allocation bound, every negative
amount passes the admission test of `useEnergy` and is added to `used`; one
further call with amount `-used - 1` leaves `used` negative, so the
non-negativity of `used` stated by the data model is not enforced. -/
theorem useEnergy_negative_accepted (c : Customer) (amt : ℚ)
    (hneg : amt < 0) (hinv : c.used ≤ c.allocated) :
    (c.useEnergy amt).1 = true ∧
    (c.useEnergy amt).2.used = c.used + amt ∧
    (c.useEnergy (-c.used - 1)).2.used < 0 := by
  have hle : amt ≤ c.allocated - c.used := by linarith
  refine ⟨by simp [Customer.useEnergy, if_pos hle],
    by simp [Customer.useEnergy, if_pos hle], ?_⟩
  by_cases h2 : -c.used - 1 ≤ c.allocated - c.used
  · simp only [Customer.useEnergy, if_pos h2]
    linarith
  · push_neg at h2
    simp only [Customer.useEnergy, if_neg (not_le.mpr h2)]
    linarith

/-- Witness for C9: the fresh allocation-500 customer accepts -5 and one
further negative call drives `used` below zero. -/
theorem useEnergy_negative_accepted_witness :
    (cAlloc.useEnergy (-5)).1 = true ∧
    (cAlloc.useEnergy (-5)).2.used = cAlloc.used + (-5) ∧
    (cAlloc.useEnergy (-cAlloc.used - 1)).2.used < 0 :=
  useEnergy_negative_accepted cAlloc (-5) (by norm_num)
    (by norm_num [cAlloc, Customer.create])

/-- Shape of a successful `makePayment`: the guard holds, so the bill at the
index is replaced by its paid copy and the reminder latch is cleared. -/
theorem makePayment_pos_eq (c : Customer) (i : ℤ) (amt : ℚ)
    (hc : 0 ≤ i ∧ i < (c.payments.length : ℤ) ∧
      (c.payments.getD i.toNat defaultPayment).amount ≤ amt) :
    c.makePayment i amt = (true,
      { c with
        payments := c.payments.set i.toNat
          { c.payments.getD i.toNat defaultPayment with isPaid := true },
        reminderSent := false }) := by
  unfold Customer.makePayment
  rw [if_pos hc]

/-- C2: `makePayment i amt` succeeds exactly when `i` is a valid bill index
and the tendered amount covers the bill amount; on success the bill at `i` is
marked paid with its amount unchanged, the reminder latch is cleared, and
every other bill and every other field is unchanged; on failure the customer
is returned unchanged, so in particular an unpaid bill stays unpaid. -/
theorem makePayment_contract (c : Customer) (i : ℤ) (amt : ℚ) :
    ((c.makePayment i amt).1 = true ↔
      0 ≤ i ∧ i < (c.payments.length : ℤ) ∧
        (c.payments.getD i.toNat defaultPayment).amount ≤ amt) ∧
    ((c.makePayment i amt).1 = true →
      ((c.makePayment i amt).2.payments.getD i.toNat defaultPayment).isPaid = true ∧
      ((c.makePayment i amt).2.payments.getD i.toNat defaultPayment).amount =
        (c.payments.getD i.toNat defaultPayment).amount ∧
      (c.makePayment i amt).2.reminderSent = false ∧
      (c.makePayment i amt).2.payments.length = c.payments.length ∧
      (∀ j, j ≠ i.toNat →
        (c.makePayment i amt).2.payments.getD j defaultPayment =
          c.payments.getD j defaultPayment) ∧
      (c.makePayment i amt).2.used = c.used ∧
      (c.makePayment i amt).2.allocated = c.allocated) ∧
    ((c.makePayment i amt).1 = false → (c.makePayment i amt).2 = c) := by
  by_cases hc : 0 ≤ i ∧ i < (c.payments.length : ℤ) ∧
      (c.payments.getD i.toNat defaultPayment).amount ≤ amt
  · obtain ⟨h0, h1, h2⟩ := id hc
    have hlen : i.toNat < c.payments.length := by omega
    have hEq := makePayment_pos_eq c i amt hc
    refine ⟨⟨fun _ => hc, fun _ => by rw [hEq]⟩, fun _ => ?_,
      fun hf => by simp [hEq] at hf⟩
    refine ⟨?_, ?_, ?_, ?_, fun j hj => ?_, ?_, ?_⟩
    · rw [hEq]
      simp [List.getD_eq_getElem?_getD, List.getElem?_set_self hlen]
    · rw [hEq]
      simp [List.getD_eq_getElem?_getD, List.getElem?_set_self hlen]
    · rw [hEq]
    · rw [hEq]
      simp
    · rw [hEq]
      simp [List.getD_eq_getElem?_getD, List.getElem?_set_ne (Ne.symm hj)]
    · rw [hEq]
    · rw [hEq]
  · have hEq : c.makePayment i amt = (false, c) := by
      unfold Customer.makePayment
      rw [if_neg hc]
    exact ⟨⟨fun ht => absurd (hEq ▸ ht) (by simp), fun hh => absurd hh hc⟩,
      fun ht => by simp [hEq] at ht, fun _ => by rw [hEq]⟩

/-- Witness for C2: the customer holding one unpaid bill of 54 can pay it
with exactly 54, and the bill is then marked paid. -/
theorem makePayment_contract_witness :
    (cBill54.makePayment 0 54).1 = true ∧
    ((cBill54.makePayment 0 54).2.payments.getD (0 : ℤ).toNat
      defaultPayment).isPaid = true := by
  have h := makePayment_contract cBill54 0 54
  have ht : (cBill54.makePayment 0 54).1 = true := by
    refine h.1.mpr ⟨le_refl 0, ?_, ?_⟩
    · norm_num [cBill54, cAlloc, Customer.create]
    · norm_num [cBill54, cAlloc, sampleBill, Customer.create, defaultPayment]
  exact ⟨ht, (h.2.1 ht).1⟩

/-- C10: re-paying an already-paid bill with a covering amount succeeds
again, leaves the bill paid, and clears the reminder latch, so repeatedly
paying an old paid bill re-enables reminders at any time. -/
theorem makePayment_repay (c : Customer) (i : ℤ) (amt : ℚ)
    (h0 : 0 ≤ i) (h1 : i < (c.payments.length : ℤ))
    (hp : (c.payments.getD i.toNat defaultPayment).isPaid = true)
    (ha : (c.payments.getD i.toNat defaultPayment).amount ≤ amt) :
    (c.makePayment i amt).1 = true ∧
    ((c.makePayment i amt).2.payments.getD i.toNat defaultPayment).isPaid = true ∧
    (c.makePayment i amt).2.reminderSent = false := by
  have hlen : i.toNat < c.payments.length := by omega
  have hEq := makePayment_pos_eq c i amt ⟨h0, h1, ha⟩
  refine ⟨by simp [hEq], ?_, by rw [hEq]⟩
  rw [hEq]
  simp [List.getD_eq_getElem?_getD, List.getElem?_set_self hlen]

/-- Witness for C10: paying 54 against the already-paid bill of 54 succeeds,
keeps the bill paid, and clears the latch. -/
theorem makePayment_repay_witness :
    (cPaid.makePayment 0 54).1 = true ∧
    ((cPaid.makePayment 0 54).2.payments.getD (0 : ℤ).toNat
      defaultPayment).isPaid = true ∧
    (cPaid.makePayment 0 54).2.reminderSent = false :=
  makePayment_repay cPaid 0 54 (le_refl 0)
    (by norm_num [cPaid, cAlloc, Customer.create])
    (by norm_num [cPaid, cAlloc, Customer.create, defaultPayment])
    (by norm_num [cPaid, cAlloc, Customer.create, defaultPayment])

/-- The reminder email always starts with a non-empty header, so it is never
the empty string regardless of the body. -/
theorem reminderEmail_ne_empty (c : Customer) (s : String) :
    c.reminderHeader ++ s ++ reminderFooter ≠ "" := by
  intro h
  have hlen := congrArg String.length h
  simp only [Customer.reminderHeader, String.length_append,
    show ("" : String).length = 0 from rfl,
    show ("To: ").length = 4 from rfl] at hlen
  omega

/-- Shape of a successful `sendReminder`: latch set, text assembled from the
header, the per-overdue-bill lines and the footer. -/
theorem sendReminder_pos_eq (c : Customer) (now : ℕ)
    (ho : c.hasOverdue now = true) (hr : c.reminderSent = false) :
    c.sendReminder now =
      (c.reminderHeader ++ String.join (c.reminderLines now) ++ reminderFooter,
        { c with reminderSent := true }) := by
  unfold Customer.sendReminder
  simp [ho, hr]

/-- Shape of a suppressed `sendReminder`: no overdue bill or latch already
set gives empty text and an unchanged customer. -/
theorem sendReminder_neg_eq (c : Customer) (now : ℕ)
    (h : ¬(c.hasOverdue now = true ∧ c.reminderSent = false)) :
    c.sendReminder now = ("", c) := by
  unfold Customer.sendReminder
  have hcond : (c.hasOverdue now && !c.reminderSent) = false := by
    cases hov : c.hasOverdue now <;> cases hrs : c.reminderSent <;> simp_all
  simp [hcond]

/-- A successful `makePayment` always clears the reminder latch. -/
theorem makePayment_true_clears_latch (c : Customer) (i : ℤ) (amt : ℚ)
    (h : (c.makePayment i amt).1 = true) :
    (c.makePayment i amt).2.reminderSent = false := by
  by_cases hc : 0 ≤ i ∧ i < (c.payments.length : ℤ) ∧
      (c.payments.getD i.toNat defaultPayment).amount ≤ amt
  · rw [makePayment_pos_eq c i amt hc]
  · unfold Customer.makePayment at h
    rw [if_neg hc] at h
    exact absurd h (by simp)

/-- C5: `sendReminder` returns non-empty text exactly when some bill is
overdue and the latch is clear; on success it sets the latch and the text is
the header, one line per currently-overdue bill (each line carrying the bill
amount to two decimals and its days-past-due count `getDaysSince - 30`), and
the footer; calling again immediately returns empty text and changes
nothing; after a successful payment clears the latch, a later overdue
episode again yields non-empty text. -/
theorem sendReminder_contract (c : Customer) (now now2 now3 : ℕ) (i : ℤ) (amt : ℚ) :
    ((c.sendReminder now).1 ≠ "" ↔
      c.hasOverdue now = true ∧ c.reminderSent = false) ∧
    (c.hasOverdue now = true → c.reminderSent = false →
      (c.sendReminder now).2.reminderSent = true ∧
      (c.sendReminder now).1 =
        c.reminderHeader ++ String.join (c.reminderLines now) ++ reminderFooter ∧
      (∀ p ∈ c.payments, p.isOverdue now = true →
        reminderLine now p ∈ c.reminderLines now)) ∧
    ((c.sendReminder now).1 ≠ "" →
      (c.sendReminder now).2.sendReminder now2 = ("", (c.sendReminder now).2)) ∧
    (((c.sendReminder now).2.makePayment i amt).1 = true →
      ((c.sendReminder now).2.makePayment i amt).2.hasOverdue now3 = true →
      (((c.sendReminder now).2.makePayment i amt).2.sendReminder now3).1 ≠ "") := by
  refine ⟨?_, fun ho hr => ?_, fun h1 => ?_, fun hpay hovd => ?_⟩
  · constructor
    · intro hne
      by_contra hn
      rw [sendReminder_neg_eq c now hn] at hne
      exact hne rfl
    · rintro ⟨ho, hr⟩
      rw [sendReminder_pos_eq c now ho hr]
      exact reminderEmail_ne_empty c _
  · rw [sendReminder_pos_eq c now ho hr]
    exact ⟨rfl, rfl, fun p hp hpo =>
      List.mem_map_of_mem _ (List.mem_filter.mpr ⟨hp, hpo⟩)⟩
  · have hc : c.hasOverdue now = true ∧ c.reminderSent = false := by
      by_contra hn
      rw [sendReminder_neg_eq c now hn] at h1
      exact h1 rfl
    rw [sendReminder_pos_eq c now hc.1 hc.2]
    exact sendReminder_neg_eq _ now2 (by simp)
  · have hrs2 := makePayment_true_clears_latch _ i amt hpay
    rw [sendReminder_pos_eq _ now3 hovd hrs2]
    exact reminderEmail_ne_empty _ _

/-- Witness for C5: the customer holding the unpaid 31-day-old bill of 54
gets non-empty reminder text, and an immediate second call gets empty
text. -/
theorem sendReminder_contract_witness :
    (cBill54.sendReminder 2678400).1 ≠ "" ∧
    ((cBill54.sendReminder 2678400).2.sendReminder 2678400).1 = "" := by
  have h := sendReminder_contract cBill54 2678400 2678400 2678400 0 54
  have h1 : (cBill54.sendReminder 2678400).1 ≠ "" :=
    h.1.mpr ⟨by decide, rfl⟩
  exact ⟨h1, by rw [h.2.2.1 h1]⟩

/-- C6 counterexample: in the fixture system whose sole customer was driven
to `used = -5` through the public interface, `doBilling` leaves that
customer at `used = -5`, so it is not the case that after the cycle every
customer has `used = 0`. -/
theorem doBilling_counterexample :
    ((negSystem.doBilling 0).customers.map Customer.used) = [-5] ∧
    ((-5 : ℚ) ≠ 0) := by
  constructor
  · norm_num [negSystem, negUsedCustomer, emptySystem, EnergySystem.addCustomer,
      EnergySystem.doBilling, Customer.useEnergy, Customer.create, bucketAdd]
  · norm_num

/-- C6 amended: `doBilling` gives each customer with positive usage exactly
one new bill at the catalog rate of its energy type, resetting its usage to
0, and skips customers with `used ≤ 0` untouched; consequently after the
cycle every customer has `used ≤ 0`, and `used = 0` whenever the pre-cycle
usage was non-negative. -/
theorem doBilling_spec (s : EnergySystem) (now : ℕ) :
    (s.doBilling now).customers.length = s.customers.length ∧
    List.Forall₂ (fun c c2 =>
      (0 < c.used → c2 = c.createBill (s.rates c.energyType) now) ∧
      (c.used ≤ 0 → c2 = c) ∧
      c2.used ≤ 0 ∧
      (0 ≤ c.used → c2.used = 0))
      s.customers (s.doBilling now).customers ∧
    (∀ c2 ∈ (s.doBilling now).customers, c2.used ≤ 0) := by
  have hmap : (s.doBilling now).customers = s.customers.map (fun c =>
      if 0 < c.used then c.createBill (s.rates c.energyType) now else c) := rfl
  have hstep : ∀ c : Customer,
      (0 < c.used →
        (if 0 < c.used then c.createBill (s.rates c.energyType) now else c) =
          c.createBill (s.rates c.energyType) now) ∧
      (c.used ≤ 0 →
        (if 0 < c.used then c.createBill (s.rates c.energyType) now else c) = c) ∧
      (if 0 < c.used then c.createBill (s.rates c.energyType) now else c).used ≤ 0 ∧
      (0 ≤ c.used →
        (if 0 < c.used then c.createBill (s.rates c.energyType) now else c).used = 0) := by
    intro c
    by_cases hpos : 0 < c.used
    · refine ⟨fun _ => by rw [if_pos hpos], fun hle => absurd hpos (not_lt.mpr hle),
        ?_, fun _ => ?_⟩
      · rw [if_pos hpos]
        exact le_of_eq rfl
      · rw [if_pos hpos]
        rfl
    · refine ⟨fun hp => absurd hp hpos, fun _ => by rw [if_neg hpos],
        ?_, fun hge => ?_⟩
      · rw [if_neg hpos]
        exact not_lt.mp hpos
      · rw [if_neg hpos]
        exact le_antisymm (not_lt.mp hpos) hge
  refine ⟨by rw [hmap]; simp, ?_, ?_⟩
  · rw [hmap, List.forall₂_map_right_iff, List.forall₂_same]
    exact fun c _ => hstep c
  · intro c2 hc2
    rw [hmap] at hc2
    obtain ⟨c, -, rfl⟩ := List.mem_map.mp hc2
    exact (hstep c).2.2.1

/-- Witness for C6: after `doBilling`, the fixture customer that had used 300
of its 500 allocation carries usage ≤ 0 (in fact exactly 0). -/
theorem doBilling_spec_witness :
    ((sys300.doBilling 7).customers.getD 0 defaultCustomer).used ≤ 0 :=
  (doBilling_spec sys300 7).2.2 _ (by
    norm_num [sys300, c300, cAlloc, emptySystem, EnergySystem.addCustomer,
      EnergySystem.doBilling, Customer.useEnergy, Customer.create, bucketAdd,
      Customer.createBill, Payment.create, List.getD])

/-- C7 counterexample: in the fixture system, `findCustomers "Smith" ""`
returns the customer named Bob Jones because the query matches the email,
although the name does not contain the query, so the result is not exactly
the customers whose name contains Smith. -/
theorem findCustomers_name_counterexample :
    (smithSystem.findCustomers "Smith" "").map Customer.name = ["Bob Jones"] ∧
    strContains "Bob Jones" "Smith" = false := by
  exact ⟨by decide, by decide⟩

/-- C7 amended: `findCustomers` returns, in insertion order, exactly the
customers passing the optional province filter whose ID rendering, name, or
email contains the query as a case-sensitive substring; in particular the
query "" with province Ontario returns exactly the Ontario customers, and
the query Smith with no province filter returns exactly the customers whose
ID rendering, name, or email contains Smith. -/
theorem findCustomers_characterization (s : EnergySystem) (query prov : String) :
    List.Sublist (s.findCustomers query prov) s.customers ∧
    (∀ c, c ∈ s.findCustomers query prov ↔
      c ∈ s.customers ∧ (prov = "" ∨ c.province = prov) ∧
      (query.data <:+: (toString c.id).data ∨ query.data <:+: c.name.data ∨
        query.data <:+: c.email.data)) ∧
    (∀ c, c ∈ s.findCustomers "" "Ontario" ↔
      c ∈ s.customers ∧ c.province = "Ontario") ∧
    (∀ c, c ∈ s.findCustomers "Smith" "" ↔
      c ∈ s.customers ∧
      ("Smith".data <:+: (toString c.id).data ∨ "Smith".data <:+: c.name.data ∨
        "Smith".data <:+: c.email.data)) := by
  refine ⟨List.filter_sublist _, fun c => ?_, fun c => ?_, fun c => ?_⟩
  · rw [EnergySystem.findCustomers, List.mem_filter]
    simp only [Bool.and_eq_true, Bool.or_eq_true, beq_iff_eq,
      Customer.matchesQuery, strContains, decide_eq_true_iff]
    tauto
  · rw [EnergySystem.findCustomers, List.mem_filter]
    simp only [Bool.and_eq_true, Bool.or_eq_true, beq_iff_eq,
      Customer.matchesQuery, strContains, decide_eq_true_iff,
      show ("" : String).data = [] from rfl]
    have hne : ¬("Ontario" : String) = "" := by decide
    have hinf : ∀ l : List Char, [] <:+: l := fun _ => List.nil_infix
    tauto
  · rw [EnergySystem.findCustomers, List.mem_filter]
    simp only [Bool.and_eq_true, Bool.or_eq_true, beq_iff_eq,
      Customer.matchesQuery, strContains, decide_eq_true_iff]
    tauto

/-- Witness for C7: the fixture customer whose email contains Smith is in
the result of the Smith query with no province filter. -/
theorem findCustomers_characterization_witness :
    smithEmailCustomer ∈ smithSystem.findCustomers "Smith" "" :=
  ((findCustomers_characterization smithSystem "Smith" "").2.2.2
    smithEmailCustomer).mpr ⟨by decide, by decide⟩

/-- C8: the percentage computations of `showStats` and `createMonthlyReport`
are not defined on an empty population: with zero customers, or zero summed
allocation, the source divides by zero (modelled as `none`) instead of
returning the 0% the specification requires. -/
theorem emptyPopulationDivision_failing (now : ℕ) :
    overduePercentage [] now = none ∧
    usagePercentage 100 0 = none ∧
    provinceOverduePercentage 3 0 = none := by
  refine ⟨?_, ?_, ?_⟩ <;>
    simp [overduePercentage, usagePercentage, provinceOverduePercentage]

end EnergyProvider
